import Mathlib

/-!
Shallow embedding of src/py/metrics.py (fair-phenotype repository).

A pandas DataFrame row carries the four columns the code reads
(person_id, subject_id, gender_concept_id, cohort_definition_id);
a DataFrame is the list of its rows.  Python float division of row
counts is modelled over the rationals; a Python exception is the
error branch of Except.
-/

structure Row where
  person_id : Int
  subject_id : Int
  gender_concept_id : Int
  cohort_definition_id : Int
deriving DecidableEq, Repr

abbrev DataFrame := List Row

inductive PyError where
  | zeroDivisionError : PyError
  | nameError : String → PyError
deriving DecidableEq, Repr

deriving instance DecidableEq for Except

/-- Python division `a / b` on numbers: raises ZeroDivisionError when the
denominator is zero, otherwise returns the exact quotient. -/
def pyDiv (a b : ℚ) : Except PyError ℚ :=
  if b = 0 then .error .zeroDivisionError else .ok (a / b)

/-- Embeds `len(phenotype[phenotype.gender_concept_id == g])` as a natural
number (pandas row count). -/
def countGenderN (df : DataFrame) (g : Int) : Nat :=
  (df.filter fun r => r.gender_concept_id == g).length

/-- Row count of one gender class, as the rational it becomes under Python
float division. -/
def countGender (df : DataFrame) (g : Int) : ℚ :=
  (countGenderN df g : ℚ)

/-- Embeds the body of the `for phenotype in list_of_dataframes` loop of
calculate_demographic_parity (src/py/metrics.py lines 28-34), with `diffs`
the accumulator list. -/
def demoLoop (dfs : List DataFrame) (m w : Int) (diffs : List ℚ) :
    Except PyError (List ℚ) :=
  match dfs with
  | [] => .ok diffs
  | phenotype :: rest => do
      let class_0_prop_outcome ← pyDiv (countGender phenotype 8507) (m : ℚ)
      let class_1_prop_outcome ← pyDiv (countGender phenotype 8532) (w : ℚ)
      demoLoop rest m w (diffs ++ [class_1_prop_outcome - class_0_prop_outcome])

/-- Embeds calculate_demographic_parity (src/py/metrics.py lines 9-36):
for each phenotype frame, class-0 rate = count of gender 8507 rows / men_total,
class-1 rate = count of gender 8532 rows / women_total; appends
class_1 rate - class_0 rate. -/
def calculate_demographic_parity (list_of_dataframes : List DataFrame)
    (men_total women_total : Int) : Except PyError (List ℚ) :=
  demoLoop list_of_dataframes men_total women_total []

/-- Embeds `len(phenotype[(phenotype.gender_concept_id == g) &
(phenotype.person_id.isin(Y))])` as a natural number. -/
def countGenderInYN (df : DataFrame) (g : Int) (Y : Finset Int) : Nat :=
  (df.filter fun r => r.gender_concept_id == g && decide (r.person_id ∈ Y)).length

/-- Embeds `set(df[df.cohort_definition_id == cohort_definition_id].subject_id.unique())`
(src/py/metrics.py lines 65-67 and 118-120). -/
def subjectSet (df : DataFrame) (cid : Int) : Finset Int :=
  ((df.filter fun r => r.cohort_definition_id == cid).map fun r => r.subject_id).toFinset

/-- Embeds the dict `all_sets` built in the zip loop: an association list in
insertion order, keyed by cohort_definition_id.  `zip` silently truncates to
the shorter of the two input lists, exactly as Python zip does. -/
def allSets (dfs : List DataFrame) (ids : List Int) : List (Int × Finset Int) :=
  (dfs.zip ids).map fun p => (p.2, subjectSet p.1 p.2)

/-- Python dict lookup on the association list: the last write to a key wins;
a missing key is modelled as the empty set (the code never looks up a missing
key, since every element of inds was inserted). -/
def dictGet (d : List (Int × Finset Int)) (k : Int) : Finset Int :=
  match d.reverse.find? (fun p => p.1 == k) with
  | some p => p.2
  | none => ∅

/-- Embeds the list `inds` accumulated in the zip loop (the cohort ids that
were actually paired with a dataframe). -/
def indsOf (dfs : List DataFrame) (ids : List Int) : List Int :=
  (dfs.zip ids).map fun p => p.2

/-- Embeds `int(np.ceil(num_phenotypes / 2))`: for a natural n this is
exactly ceil(n / 2) = (n + 1) / 2 in natural division. -/
def majorityCount (n : Nat) : Nat := (n + 1) / 2

/-- Embeds the consensus-set construction shared by
calculate_equality_of_opportunity (lines 67-74) and
calculate_predictive_rate_parity (lines 120-127): iterate over all
majority-sized combinations of inds; for each combination fold an
`intermediate_set` that STARTS AS THE EMPTY SET and is repeatedly replaced by
its intersection with the member cohort sets; union the results into Y. -/
def buildY (dfs : List DataFrame) (ids : List Int) : Finset Int :=
  (List.sublistsLen (majorityCount dfs.length) (indsOf dfs ids)).foldl
    (fun Y ele => Y ∪ ele.foldl (fun s item => s ∩ dictGet (allSets dfs ids) item) ∅) ∅

/-- Modelled from the spec (section 4.1, steps 3-4): for each majority
combination, the intersection of the k member cohorts' subject sets (the
intersection of a nonempty family, folded from its first member), accumulated
by union into Y.  This is the spec's intended consensus, kept separate from
buildY, the code's construction, to compare the two. -/
def interList : List (Finset Int) → Finset Int
  | [] => ∅
  | s :: rest => rest.foldl (fun a b => a ∩ b) s

/-- Modelled from the spec (section 4.1): union over all majority coalitions
of the intersection of their member cohorts' subject sets. -/
def consensusSpec (dfs : List DataFrame) (ids : List Int) : Finset Int :=
  (List.sublistsLen (majorityCount dfs.length) (indsOf dfs ids)).foldl
    (fun Y ele => Y ∪ interList (ele.map (dictGet (allSets dfs ids)))) ∅

/-- Names defined at module scope in src/py/metrics.py: the two imports
(lines 6-7) and the three function definitions.  `pd` is not among them. -/
def moduleGlobals : List String :=
  ["np", "itertools", "calculate_demographic_parity",
   "calculate_equality_of_opportunity", "calculate_predictive_rate_parity"]

/-- Python global-name resolution: referencing a name that is not bound at
module scope raises NameError. -/
def lookupGlobal (name : String) : Except PyError Unit :=
  if moduleGlobals.contains name then .ok () else .error (.nameError name)

/-- Embeds `pd.concat([df[df.person_id.isin(Y)] for df in list_of_dataframes]).drop_duplicates()`
(line 76), as it would behave were pandas imported: concatenate the filtered
frames in order and drop exact-duplicate rows keeping first occurrences. -/
def fullDf (dfs : List DataFrame) (Y : Finset Int) : DataFrame :=
  ((dfs.map fun df => df.filter fun r => decide (r.person_id ∈ Y)).flatten).eraseDups

/-- Embeds the final loop of calculate_equality_of_opportunity (lines 82-90):
numerator = rows of this phenotype with the class gender and person_id in Y,
denominator = rows of full_df with the class gender (global denominator). -/
def eqOppLoop (Y : Finset Int) (full_df : DataFrame) (dfs : List DataFrame)
    (diffs : List ℚ) : Except PyError (List ℚ) :=
  match dfs with
  | [] => .ok diffs
  | phenotype :: rest => do
      let class_0_eqq_opp ← pyDiv (countGenderInYN phenotype 8507 Y : ℚ)
        (countGenderN full_df 8507 : ℚ)
      let class_1_eqq_opp ← pyDiv (countGenderInYN phenotype 8532 Y : ℚ)
        (countGenderN full_df 8532 : ℚ)
      eqOppLoop Y full_df rest (diffs ++ [class_1_eqq_opp - class_0_eqq_opp])

/-- Embeds calculate_equality_of_opportunity (src/py/metrics.py lines 38-92).
The module never imports pandas, so evaluating `pd.concat` at line 76 first
resolves the global name `pd`, which fails with NameError before the
concatenation or the diffs loop can run. -/
def calculate_equality_of_opportunity (list_of_dataframes : List DataFrame)
    (cohort_definition_ids : List Int) : Except PyError (List ℚ) := do
  let Y := buildY list_of_dataframes cohort_definition_ids
  let _ ← lookupGlobal "pd"
  let full_df := fullDf list_of_dataframes Y
  eqOppLoop Y full_df list_of_dataframes []

/-- Embeds the final loop of calculate_predictive_rate_parity (lines 131-139):
numerator = rows of this phenotype with the class gender and person_id in Y,
denominator = rows of this same phenotype with the class gender. -/
def prpLoop (Y : Finset Int) (dfs : List DataFrame) (diffs : List ℚ) :
    Except PyError (List ℚ) :=
  match dfs with
  | [] => .ok diffs
  | phenotype :: rest => do
      let class_0_prp ← pyDiv (countGenderInYN phenotype 8507 Y : ℚ)
        (countGenderN phenotype 8507 : ℚ)
      let class_1_prp ← pyDiv (countGenderInYN phenotype 8532 Y : ℚ)
        (countGenderN phenotype 8532 : ℚ)
      prpLoop Y rest (diffs ++ [class_1_prp - class_0_prp])

/-- Embeds calculate_predictive_rate_parity (src/py/metrics.py lines 94-141). -/
def calculate_predictive_rate_parity (list_of_dataframes : List DataFrame)
    (cohort_definition_ids : List Int) : Except PyError (List ℚ) :=
  let Y := buildY list_of_dataframes cohort_definition_ids
  prpLoop Y list_of_dataframes []

/-! Helper lemmas shared by the claim theorems. -/

/-- Folding intersection starting from the empty set stays empty. -/
theorem foldl_inter_from_empty (f : Int → Finset Int) (l : List Int) :
    l.foldl (fun s item => s ∩ f item) ∅ = ∅ := by
  induction l with
  | nil => rfl
  | cons a l ih => simpa [Finset.empty_inter] using ih

/-- Folding union of empty sets over any list leaves the accumulator. -/
theorem foldl_union_of_empty (h : List Int → Finset Int) (L : List (List Int))
    (s : Finset Int) (hh : ∀ e, h e = ∅) :
    L.foldl (fun Y ele => Y ∪ h ele) s = s := by
  induction L generalizing s with
  | nil => rfl
  | cons a L ih => simp [hh, Finset.union_empty, ih]

/-- The consensus set the code computes is always empty: each combination's
intermediate set starts as the empty set and intersection can only shrink it. -/
theorem buildY_empty (dfs : List DataFrame) (ids : List Int) :
    buildY dfs ids = ∅ := by
  unfold buildY
  exact foldl_union_of_empty _ _ _ (fun e => foldl_inter_from_empty _ e)

/-- With an empty consensus set every consensus-filtered row count is zero. -/
theorem countGenderInYN_empty (df : DataFrame) (g : Int) :
    countGenderInYN df g ∅ = 0 := by
  simp [countGenderInYN]

/-- calculate_equality_of_opportunity always raises NameError on `pd`. -/
theorem eqOpp_nameError (dfs : List DataFrame) (ids : List Int) :
    calculate_equality_of_opportunity dfs ids = .error (.nameError "pd") := rfl

/-- When both totals are nonzero the demographic-parity loop succeeds and
returns one signed difference per phenotype, appended in input order. -/
theorem demoLoop_ok (m w : Int) (hm : (m : ℚ) ≠ 0) (hw : (w : ℚ) ≠ 0)
    (dfs : List DataFrame) (acc : List ℚ) :
    demoLoop dfs m w acc =
      .ok (acc ++ dfs.map fun df =>
        countGender df 8532 / (w : ℚ) - countGender df 8507 / (m : ℚ)) := by
  induction dfs generalizing acc with
  | nil => simp [demoLoop]
  | cons d rest ih => simp [demoLoop, pyDiv, hm, hw, Bind.bind, Except.bind, ih]

/-- A successful run of the demographic-parity loop yields one entry per
remaining phenotype on top of the accumulator. -/
theorem demoLoop_len (m w : Int) (dfs : List DataFrame) (acc l : List ℚ)
    (h : demoLoop dfs m w acc = .ok l) :
    l.length = acc.length + dfs.length := by
  induction dfs generalizing acc with
  | nil =>
      simp [demoLoop] at h
      simp [← h]
  | cons d rest ih =>
      rcases h0 : pyDiv (countGender d 8507) (m : ℚ) with e | c0
      · simp [demoLoop, h0, Bind.bind, Except.bind] at h
      · rcases h1 : pyDiv (countGender d 8532) (w : ℚ) with e | c1
        · simp [demoLoop, h0, h1, Bind.bind, Except.bind] at h
        · simp only [demoLoop, h0, h1, Bind.bind, Except.bind] at h
          have h2 := ih _ h
          simp [List.length_append] at h2 ⊢
          omega

/-- With the empty consensus set and nonzero per-phenotype class counts the
predictive-rate-parity loop succeeds and every difference is 0. -/
theorem prpLoop_empty_ok (dfs : List DataFrame) (acc : List ℚ)
    (h : ∀ df ∈ dfs, countGenderN df 8507 ≠ 0 ∧ countGenderN df 8532 ≠ 0) :
    prpLoop ∅ dfs acc = .ok (acc ++ List.replicate dfs.length (0 : ℚ)) := by
  induction dfs generalizing acc with
  | nil => simp [prpLoop]
  | cons d rest ih =>
      obtain ⟨⟨h0, h1⟩, hrest⟩ := List.forall_mem_cons.mp h
      have e0 : ((countGenderN d 8507 : ℚ)) ≠ 0 := by exact_mod_cast h0
      have e1 : ((countGenderN d 8532 : ℚ)) ≠ 0 := by exact_mod_cast h1
      simp [prpLoop, pyDiv, countGenderInYN_empty, e0, e1, Bind.bind, Except.bind,
        ih _ hrest, List.replicate_succ]

/-- A successful run of the predictive-rate-parity loop yields one entry per
remaining phenotype on top of the accumulator. -/
theorem prpLoop_len (Y : Finset Int) (dfs : List DataFrame) (acc l : List ℚ)
    (h : prpLoop Y dfs acc = .ok l) :
    l.length = acc.length + dfs.length := by
  induction dfs generalizing acc with
  | nil =>
      simp [prpLoop] at h
      simp [← h]
  | cons d rest ih =>
      rcases h0 : pyDiv (countGenderInYN d 8507 Y : ℚ) (countGenderN d 8507 : ℚ) with e | c0
      · simp [prpLoop, h0, Bind.bind, Except.bind] at h
      · rcases h1 : pyDiv (countGenderInYN d 8532 Y : ℚ) (countGenderN d 8532 : ℚ) with e | c1
        · simp [prpLoop, h0, h1, Bind.bind, Except.bind] at h
        · simp only [prpLoop, h0, h1, Bind.bind, Except.bind] at h
          have h2 := ih _ h
          simp [List.length_append] at h2 ⊢
          omega

/-- calculate_predictive_rate_parity succeeds with an all-zero list (one zero
per phenotype) whenever every phenotype has rows of both gender classes: the
consensus set it intersects against is always empty. -/
theorem prp_ok_zeros (dfs : List DataFrame) (ids : List Int)
    (h : ∀ df ∈ dfs, countGenderN df 8507 ≠ 0 ∧ countGenderN df 8532 ≠ 0) :
    calculate_predictive_rate_parity dfs ids = .ok (List.replicate dfs.length (0 : ℚ)) := by
  unfold calculate_predictive_rate_parity
  rw [buildY_empty]
  simpa using prpLoop_empty_ok dfs [] h

/-!
Mutation model.  To settle the frame-effect claim, each metric function is
re-embedded over an explicit store: the caller's dataframes live in a store
(the Python heap), a function receives indices into it, and every access the
source performs on a caller dataframe goes through readDf, which returns the
frame together with the store that results from the access.  The source only
ever reads caller frames (boolean-mask selections allocate new frames; set
and list operations act on locals), so readDf leaves the store as it is; the
theorems below show the store after each call is the store before it.
Execution stops at a raise, so the store versions end where an exception is
raised, exactly as the Python functions do.
-/

abbrev Store := List DataFrame

/-- Access to a caller-supplied dataframe: yields the frame and the store
after the access.  All accesses in src/py/metrics.py are reads. -/
def readDf (st : Store) (i : Nat) : DataFrame × Store := (st.getD i [], st)

/-- Store-level embedding of the demographic-parity loop (lines 28-34). -/
def demoLoopS (st : Store) (idxs : List Nat) (m w : Int) (diffs : List ℚ) :
    Except PyError (List ℚ) × Store :=
  match idxs with
  | [] => (.ok diffs, st)
  | i :: rest =>
      let p := readDf st i
      match pyDiv (countGender p.1 8507) (m : ℚ) with
      | .error e => (.error e, p.2)
      | .ok c0 =>
          match pyDiv (countGender p.1 8532) (w : ℚ) with
          | .error e => (.error e, p.2)
          | .ok c1 => demoLoopS p.2 rest m w (diffs ++ [c1 - c0])

/-- Store-level embedding of calculate_demographic_parity. -/
def calculate_demographic_parityS (st : Store) (idxs : List Nat) (m w : Int) :
    Except PyError (List ℚ) × Store :=
  demoLoopS st idxs m w []

/-- Store-level embedding of the zip loop building all_sets and inds
(lines 65-67 and 118-120): one read per paired dataframe. -/
def allSetsS (st : Store) (pairs : List (Nat × Int))
    (acc : List (Int × Finset Int)) : List (Int × Finset Int) × Store :=
  match pairs with
  | [] => (acc, st)
  | (i, cid) :: rest =>
      let p := readDf st i
      allSetsS p.2 rest (acc ++ [(cid, subjectSet p.1 cid)])

/-- Store-level embedding of the consensus construction (lines 62-74 and
115-127): the combination loops act only on the local dict and local sets. -/
def buildYS (st : Store) (idxs : List Nat) (ids : List Int) :
    Finset Int × Store :=
  let p := allSetsS st (idxs.zip ids) []
  ((List.sublistsLen (majorityCount idxs.length) ((idxs.zip ids).map fun q => q.2)).foldl
    (fun Y ele => Y ∪ ele.foldl (fun s item => s ∩ dictGet p.1 item) ∅) ∅, p.2)

/-- Store-level embedding of the predictive-rate-parity loop (lines 131-139). -/
def prpLoopS (st : Store) (Y : Finset Int) (idxs : List Nat) (diffs : List ℚ) :
    Except PyError (List ℚ) × Store :=
  match idxs with
  | [] => (.ok diffs, st)
  | i :: rest =>
      let p := readDf st i
      match pyDiv (countGenderInYN p.1 8507 Y : ℚ) (countGenderN p.1 8507 : ℚ) with
      | .error e => (.error e, p.2)
      | .ok c0 =>
          match pyDiv (countGenderInYN p.1 8532 Y : ℚ) (countGenderN p.1 8532 : ℚ) with
          | .error e => (.error e, p.2)
          | .ok c1 => prpLoopS p.2 Y rest (diffs ++ [c1 - c0])

/-- Store-level embedding of calculate_predictive_rate_parity. -/
def calculate_predictive_rate_parityS (st : Store) (idxs : List Nat)
    (ids : List Int) : Except PyError (List ℚ) × Store :=
  let p := buildYS st idxs ids
  prpLoopS p.2 p.1 idxs []

/-- Store-level embedding of calculate_equality_of_opportunity: after the
consensus construction the function evaluates `pd.concat`, whose name lookup
raises NameError; the raise aborts execution there, so no statement after it
can touch the store. -/
def calculate_equality_of_opportunityS (st : Store) (idxs : List Nat)
    (ids : List Int) : Except PyError (List ℚ) × Store :=
  let p := buildYS st idxs ids
  match lookupGlobal "pd" with
  | .error e => (.error e, p.2)
  | .ok _ => (calculate_equality_of_opportunity (idxs.map fun i => st.getD i []) ids, p.2)

/-- readDf never changes the store. -/
theorem readDf_store (st : Store) (i : Nat) : (readDf st i).2 = st := rfl

/-- The demographic-parity loop leaves the store unchanged. -/
theorem demoLoopS_store (m w : Int) (idxs : List Nat) (st : Store) (acc : List ℚ) :
    (demoLoopS st idxs m w acc).2 = st := by
  induction idxs generalizing st acc with
  | nil => rfl
  | cons i rest ih =>
      simp only [demoLoopS, readDf]
      rcases pyDiv (countGender (st.getD i []) 8507) (m : ℚ) with e | c0
      · rfl
      · rcases pyDiv (countGender (st.getD i []) 8532) (w : ℚ) with e | c1
        · rfl
        · exact ih st _

/-- The all_sets zip loop leaves the store unchanged. -/
theorem allSetsS_store (pairs : List (Nat × Int)) (st : Store)
    (acc : List (Int × Finset Int)) : (allSetsS st pairs acc).2 = st := by
  induction pairs generalizing st acc with
  | nil => rfl
  | cons p rest ih => exact ih st _

/-- The consensus construction leaves the store unchanged. -/
theorem buildYS_store (st : Store) (idxs : List Nat) (ids : List Int) :
    (buildYS st idxs ids).2 = st := by
  simp [buildYS, allSetsS_store]

/-- The predictive-rate-parity loop leaves the store unchanged. -/
theorem prpLoopS_store (Y : Finset Int) (idxs : List Nat) (st : Store) (acc : List ℚ) :
    (prpLoopS st Y idxs acc).2 = st := by
  induction idxs generalizing st acc with
  | nil => rfl
  | cons i rest ih =>
      simp only [prpLoopS, readDf]
      rcases pyDiv (countGenderInYN (st.getD i []) 8507 Y : ℚ) (countGenderN (st.getD i []) 8507 : ℚ) with e | c0
      · rfl
      · rcases pyDiv (countGenderInYN (st.getD i []) 8532 Y : ℚ) (countGenderN (st.getD i []) 8532 : ℚ) with e | c1
        · rfl
        · exact ih st _

/-!
Concrete inputs used by the claim theorems and their witnesses.
-/

/-- First cohort frame of the spec scenario: subjects 1, 2, 3 (A, B, C) under
cohort id 1. -/
def scenDf1 : DataFrame := [⟨1, 1, 8507, 1⟩, ⟨2, 2, 8507, 1⟩, ⟨3, 3, 8507, 1⟩]

/-- Second cohort frame of the spec scenario: subjects 2, 3, 4 (B, C, D) under
cohort id 2. -/
def scenDf2 : DataFrame := [⟨2, 2, 8507, 2⟩, ⟨3, 3, 8507, 2⟩, ⟨4, 4, 8507, 2⟩]

/-- Third cohort frame of the spec scenario: subjects 3, 4, 5 (C, D, E) under
cohort id 3. -/
def scenDf3 : DataFrame := [⟨3, 3, 8507, 3⟩, ⟨4, 4, 8507, 3⟩, ⟨5, 5, 8507, 3⟩]

/-- Demographic-parity scenario frame: 40 rows of gender 8507 and 60 rows of
gender 8532. -/
def demoScenDf : DataFrame :=
  List.replicate 40 ⟨0, 0, 8507, 0⟩ ++ List.replicate 60 ⟨1, 1, 8532, 0⟩

/-- Small frame with one row of each gender class, cohort 1, subjects 1, 2. -/
def dfA : DataFrame := [⟨1, 1, 8507, 1⟩, ⟨2, 2, 8532, 1⟩]

/-- Small frame with one row of each gender class, cohort 2, subjects 3, 4. -/
def dfB : DataFrame := [⟨3, 3, 8507, 2⟩, ⟨4, 4, 8532, 2⟩]

/-- Cohort-10 frame over subjects 1 and 2 (one row per gender class). -/
def dfE1 : DataFrame := [⟨1, 1, 8507, 10⟩, ⟨2, 2, 8532, 10⟩]

/-- Cohort-20 frame over the same subjects 1 and 2: together with dfE1 every
subject appears in every cohort. -/
def dfE2 : DataFrame := [⟨1, 1, 8507, 20⟩, ⟨2, 2, 8532, 20⟩]

/-!
Claim theorems.
-/

/-- C1: at the spec's 3-cohort scenario (subject sets {1,2,3}, {2,3,4},
{3,4,5} for A..E as 1..5) the majority-consensus set described by the claim
is {2,3,4}, but the set the code computes is empty: the code initializes each
combination's intermediate set to the empty set before intersecting, so no
subject ever enters Y. -/
theorem C1_consensus_scenario :
    consensusSpec [scenDf1, scenDf2, scenDf3] [1, 2, 3] = ({2, 3, 4} : Finset Int) ∧
    buildY [scenDf1, scenDf2, scenDf3] [1, 2, 3] = ∅ ∧
    (∅ : Finset Int) ≠ ({2, 3, 4} : Finset Int) := by
  refine ⟨by decide, buildY_empty _ _, by decide⟩

/-- C2: calculate_equality_of_opportunity references the global name pd, which
src/py/metrics.py never binds (only np and itertools are imported), so every
call, on any input, raises NameError and never returns a result. -/
theorem C2_eqOpp_always_nameError (dfs : List DataFrame) (ids : List Int) :
    calculate_equality_of_opportunity dfs ids = .error (.nameError "pd") ∧
    "pd" ∉ moduleGlobals :=
  ⟨eqOpp_nameError dfs ids, by decide⟩

/-- C3: the consensus set computed inside both cohort metrics is the empty
set on every input, and consequently every row count that requires person_id
membership in it is zero. -/
theorem C3_consensus_always_empty (dfs : List DataFrame) (ids : List Int)
    (df : DataFrame) (g : Int) :
    buildY dfs ids = ∅ ∧ countGenderInYN df g (buildY dfs ids) = 0 := by
  refine ⟨buildY_empty dfs ids, ?_⟩
  rw [buildY_empty]
  exact countGenderInYN_empty df g

/-- C4: with positive totals, demographic parity returns per dataset the
count of gender-8532 rows over women_total minus the count of gender-8507
rows over men_total (positive when class 1 has the higher rate); at the
spec's scenario (40 class-0 rows, men_total 100; 60 class-1 rows, women_total
200) the entry is 60/200 - 40/100 = -1/10. -/
theorem C4_demographic_parity (dfs : List DataFrame) (m w : Int)
    (hm : 0 < m) (hw : 0 < w) :
    calculate_demographic_parity dfs m w =
      .ok (dfs.map fun df =>
        countGender df 8532 / (w : ℚ) - countGender df 8507 / (m : ℚ)) ∧
    calculate_demographic_parity [demoScenDf] 100 200 = .ok [(-1 : ℚ)/10] := by
  have hm0 : ((m : ℚ)) ≠ 0 := by exact_mod_cast hm.ne'
  have hw0 : ((w : ℚ)) ≠ 0 := by exact_mod_cast hw.ne'
  refine ⟨by simpa using demoLoop_ok m w hm0 hw0 dfs [], ?_⟩
  have h0 : countGenderN demoScenDf 8507 = 40 := by decide
  have h1 : countGenderN demoScenDf 8532 = 60 := by decide
  have := demoLoop_ok 100 200 (by norm_num) (by norm_num) [demoScenDf] []
  rw [calculate_demographic_parity, this]
  norm_num [countGender, h0, h1]

/-- C4 witness: the theorem applied at the spec's scenario frame with
men_total 100 and women_total 200 yields exactly -1/10. -/
theorem C4_demographic_parity_witness :
    calculate_demographic_parity [demoScenDf] 100 200 = .ok [(-1 : ℚ)/10] :=
  (C4_demographic_parity [demoScenDf] 100 200 (by decide) (by decide)).2

/-- C5: on a nonempty dataset list, a zero men_total or a zero women_total
makes demographic parity fail with the division error; no inf or NaN result
is ever produced because no result is returned at all. -/
theorem C5_division_error (dfs : List DataFrame) (m w : Int)
    (hne : dfs ≠ []) (hz : m = 0 ∨ w = 0) :
    calculate_demographic_parity dfs m w = .error .zeroDivisionError := by
  rcases dfs with _ | ⟨d, rest⟩
  · exact absurd rfl hne
  · rcases hz with hz | hz
    · subst hz
      simp [calculate_demographic_parity, demoLoop, pyDiv, Bind.bind, Except.bind]
    · subst hz
      by_cases hm : ((m : ℚ)) = 0 <;>
        simp [calculate_demographic_parity, demoLoop, pyDiv, hm, Bind.bind, Except.bind]

/-- C5 witness: the theorem applied at a one-frame list with men_total 0. -/
theorem C5_division_error_witness :
    calculate_demographic_parity [[⟨0, 0, 8507, 0⟩]] 0 5 = .error .zeroDivisionError :=
  C5_division_error [[⟨0, 0, 8507, 0⟩]] 0 5 (by decide) (Or.inl rfl)

/-- C6: whenever a metric call succeeds it returns exactly one entry per
input dataset: each loop appends one difference per phenotype in input
order (for equality of opportunity the property holds vacuously, since no
call succeeds). -/
theorem C6_result_lengths (dfs : List DataFrame) (ids : List Int) (m w : Int) :
    (∀ l, calculate_demographic_parity dfs m w = .ok l → l.length = dfs.length) ∧
    (∀ l, calculate_equality_of_opportunity dfs ids = .ok l → l.length = dfs.length) ∧
    (∀ l, calculate_predictive_rate_parity dfs ids = .ok l → l.length = dfs.length) := by
  refine ⟨fun l h => ?_, fun l h => ?_, fun l h => ?_⟩
  · simpa using demoLoop_len m w dfs [] l h
  · rw [eqOpp_nameError] at h
    cases h
  · unfold calculate_predictive_rate_parity at h
    simpa using prpLoop_len _ dfs [] l h

/-- C6 witness: predictive rate parity on two concrete frames succeeds with
the two-element list [0, 0], whose length the theorem equates with the
length of the input list. -/
theorem C6_result_lengths_witness :
    ([(0 : ℚ), 0] : List ℚ).length = ([dfA, dfB] : List DataFrame).length :=
  (C6_result_lengths [dfA, dfB] [1, 2] 1 1).2.2 [0, 0]
    (prp_ok_zeros [dfA, dfB] [1, 2] (by decide))

/-- C7 is false as stated: with two datasets and one cohort id the lengths
differ, yet predictive rate parity raises no error at all — zip silently
truncates the pairing and a full result is computed — and equality of
opportunity raises NameError, not a shape error. -/
theorem C7_counterexample :
    ([dfA, dfB] : List DataFrame).length ≠ ([1] : List Int).length ∧
    calculate_predictive_rate_parity [dfA, dfB] [1] = .ok [0, 0] ∧
    calculate_equality_of_opportunity [dfA, dfB] [1] = .error (.nameError "pd") :=
  ⟨by decide, prp_ok_zeros [dfA, dfB] [1] (by decide), eqOpp_nameError _ _⟩

/-- C7 amended: on any cohort_ids list, of matching length or not, neither
cohort metric performs a length check: zip silently truncates the pairing,
predictive rate parity returns one entry per dataset of the full input list
(all zero whenever every dataset has rows of both gender classes), and
equality of opportunity raises NameError exactly as on every other input. -/
theorem C7_amended_no_shape_check (dfs : List DataFrame) (ids : List Int)
    (h : ∀ df ∈ dfs, countGenderN df 8507 ≠ 0 ∧ countGenderN df 8532 ≠ 0) :
    calculate_predictive_rate_parity dfs ids = .ok (List.replicate dfs.length (0 : ℚ)) ∧
    calculate_equality_of_opportunity dfs ids = .error (.nameError "pd") :=
  ⟨prp_ok_zeros dfs ids h, eqOpp_nameError dfs ids⟩

/-- C7 witness: the amended statement applied at the concrete mismatched
input (two frames, one cohort id). -/
theorem C7_amended_no_shape_check_witness :
    calculate_predictive_rate_parity [dfA, dfB] [1] = .ok (List.replicate 2 (0 : ℚ)) ∧
    calculate_equality_of_opportunity [dfA, dfB] [1] = .error (.nameError "pd") :=
  C7_amended_no_shape_check [dfA, dfB] [1] (by decide)

/-- C8 evaluated at an input where both subjects appear in both cohorts: the
claim's consensus set is the full population {1, 2}, but the code computes
the empty consensus, equality of opportunity raises NameError and returns no
list, and predictive rate parity returns [0, 0]; the two functions cannot
return identical result lists because one of them never returns a list. -/
theorem C8_full_overlap_divergence :
    consensusSpec [dfE1, dfE2] [10, 20] = ({1, 2} : Finset Int) ∧
    buildY [dfE1, dfE2] [10, 20] = ∅ ∧
    calculate_equality_of_opportunity [dfE1, dfE2] [10, 20] = .error (.nameError "pd") ∧
    calculate_predictive_rate_parity [dfE1, dfE2] [10, 20] = .ok [0, 0] :=
  ⟨by decide, buildY_empty _ _, eqOpp_nameError _ _,
    prp_ok_zeros [dfE1, dfE2] [10, 20] (by decide)⟩

/-- C9: permuting the (dataset, cohort id) pairs never changes the consensus
set the code constructs — on this code trivially, since the constructed set
is the empty set for every input. -/
theorem C9_consensus_perm_invariant (dfs dfs2 : List DataFrame) (ids ids2 : List Int)
    (_h : (dfs.zip ids).Perm (dfs2.zip ids2)) :
    buildY dfs ids = buildY dfs2 ids2 := by
  rw [buildY_empty, buildY_empty]

/-- C9 witness: the two concrete frames and their cohort ids, swapped. -/
theorem C9_consensus_perm_invariant_witness :
    buildY [dfA, dfB] [1, 2] = buildY [dfB, dfA] [2, 1] :=
  C9_consensus_perm_invariant [dfA, dfB] [dfB, dfA] [1, 2] [2, 1]
    (List.Perm.swap (dfB, 2) (dfA, 1) [])

/-- C10: none of the three metric calls changes the caller's dataframe store:
the store after each call equals the store before it; every frame access the
source performs is a read, and all derived sets and frames are locals. -/
theorem C10_no_mutation (st : Store) (idxs : List Nat) (ids : List Int) (m w : Int) :
    (calculate_demographic_parityS st idxs m w).2 = st ∧
    (calculate_equality_of_opportunityS st idxs ids).2 = st ∧
    (calculate_predictive_rate_parityS st idxs ids).2 = st := by
  refine ⟨demoLoopS_store m w idxs st [], ?_, ?_⟩
  · have h : calculate_equality_of_opportunityS st idxs ids =
        (.error (.nameError "pd"), (buildYS st idxs ids).2) := rfl
    rw [h]
    exact buildYS_store st idxs ids
  · have h : calculate_predictive_rate_parityS st idxs ids =
        prpLoopS (buildYS st idxs ids).2 (buildYS st idxs ids).1 idxs [] := rfl
    rw [h, buildYS_store]
    exact prpLoopS_store (buildYS st idxs ids).1 idxs st []
